import Mathlib

/-!
Verification of the method-name-to-event binding convention of xrcform
(src/lib/xrcform.py): the name parser `MethodNameToEvent` and the
reflection loop `AutoBindEvent`, embedded shallowly.  Python strings are
Lean `String`s, Python exceptions are an explicit `PyError` sum carried in
`Except` (for the pure parser) or alongside the list of performed `Bind`
registrations (for the binder loop, whose earlier side effects survive a
later exception).  The wxPython toolkit is external to the repository; the
parts of it the code consumes (the `EVT_*` attribute registry of the `wx`
module, `dir`, `getattr`, `callable`, `Bind`, and the `XRCCTRL`-backed
`__getattr__` hook of the three window classes) are modelled explicitly
below.
-/

/-- Model of Python `str.split(sep)` for a one-character separator, on the
character list: consecutive separators yield empty tokens and the empty
input yields one empty token, exactly as in Python. -/
def splitChars (sep : Char) : List Char → List (List Char)
  | [] => [[]]
  | c :: cs =>
    let r := splitChars sep cs
    if c = sep then [] :: r
    else
      match r with
      | t :: ts => (c :: t) :: ts
      | [] => [[c]]

/-- Model of Python `name.split('_')` (line 34 of xrcform.py uses
`name.split('_')`): split on every separator occurrence, keeping empty
tokens. -/
def pySplit (sep : Char) (s : String) : List String :=
  (splitChars sep s.toList).map String.mk

/-- Model of Python `s.isdigit()` as used on candidate id tokens: true iff
the string is non-empty and every character is a decimal digit. -/
def pyIsDigit (s : String) : Bool :=
  !s.toList.isEmpty && s.toList.all Char.isDigit

/-- Model of Python `int(s)` on a string of decimal digits (the only use
site is guarded by `isdigit`), as an `Int` because the parser mixes the
result with the sentinel -1. -/
def pyInt (s : String) : Int :=
  ((s.toList.foldl (fun a c => a * 10 + (c.toNat - 48)) 0 : Nat) : Int)

/-- Model of Python `s.upper()` on the ASCII method-name fragments. -/
def pyUpper (s : String) : String :=
  String.mk (s.toList.map Char.toUpper)

/-- Model of Python `sep.join(parts)`. -/
def pyJoin (sep : String) : List String → String
  | [] => ""
  | [s] => s
  | s :: rest => s ++ sep ++ pyJoin sep rest

/-- Model of Python `s.startswith(pre)`. -/
def pyStartswith (s pre : String) : Bool :=
  pre.toList.isPrefixOf s.toList

/-- Python runtime values the binding code manipulates: `None`, strings,
integers, callables (methods, identified by name), and child-control
objects (identified by name). -/
inductive Value where
  | none
  | str (s : String)
  | intv (n : Int)
  | method (name : String)
  | ctrl (name : String)
deriving DecidableEq

/-- Model of Python `callable(value)` on the values above: only methods
are callable. -/
def pyCallable : Value → Bool
  | Value.method _ => true
  | _ => false

/-- Model of Python truthiness (`if (src):`): `None`, the empty string and
zero are falsy; every other value here is truthy. -/
def pyTruthy : Value → Bool
  | Value.none => false
  | Value.str s => !s.toList.isEmpty
  | Value.intv n => n != 0
  | _ => true

/-- The underlying string of a string value (the argument of
`getattr(win, src)` where the code knows `src` is the name string taken
from the method name). -/
def strOf : Value → String
  | Value.str s => s
  | _ => ""

/-- The Python exceptions the binding code can raise, by the source line
that raises them: `invalidName` (line 37, `Invalid method name`),
`unknownEvent` (line 61, `Invalid event name`), `missingWidget` (line 81,
`Cannot find widget`), `attributeError` (raised by attribute lookup on a
missing attribute, in particular by `XrcFrame.__getattr__` at line 141),
and `typeError` (raised by the tuple unpacking at line 77 when
`MethodNameToEvent` returns `None`). -/
inductive PyError where
  | invalidName (msg : String)
  | unknownEvent (msg : String)
  | missingWidget (msg : String)
  | attributeError (msg : String)
  | typeError (msg : String)
deriving DecidableEq

/-- Modelled from the spec: the host toolkit registry of event-kind
identifiers (the `EVT_*` attributes of the `wx` module, consumed by
`getattr(wx, evtName)` at line 59).  wxPython itself is outside the
repository; an event kind is identified by its registry key. -/
structure WxRegistry where
  events : List String
deriving DecidableEq

/-- Model of `getattr(wx, evtName)`: the event-kind identifier when the
key is registered, absent otherwise (the code turns the absence into an
`unknownEvent` exception). -/
def wxGetattr (reg : WxRegistry) (n : String) : Option String :=
  if reg.events.contains n then some n else Option.none

/-- Modelled from the spec: a concrete instance of the wxPython registry
holding the button-click event kind `EVT_BUTTON` (the spec calls it the
click-event-kind) and a few other common kinds; `EVT_BOGUSEVENT` is
deliberately not a wxPython event. -/
def wxModel : WxRegistry :=
  WxRegistry.mk ["EVT_BUTTON", "EVT_MENU", "EVT_CHECKBOX", "EVT_TEXT", "EVT_CLOSE"]

/-- The click-event-kind identifier of the modelled registry. -/
def wxEVT_BUTTON : String := "EVT_BUTTON"

/-- Embedding of `MethodNameToEvent(name, prefix)` (xrcform.py lines
15-63).  `Except.error` is a raised exception; `Except.ok Option.none` is
the bare `return` for a non-matching prefix (Python `None`, the spec's
"not applicable"); `Except.ok (some (evt, src, id1, id2))` is the normal
return tuple. -/
def MethodNameToEvent (reg : WxRegistry) (name : String) (pfx : String) :
    Except PyError (Option (String × Value × Int × Int)) :=
  let parts := pySplit '_' name
  if parts.length < 3 then
    Except.error (PyError.invalidName ("Invalid method name: " ++ name))
  else if parts.getD 0 "" ≠ pfx then
    Except.ok Option.none
  else
    let id1 : Int := if pyIsDigit (parts.getD 1 "") then pyInt (parts.getD 1 "") else -1
    let src : Value := if pyIsDigit (parts.getD 1 "") then Value.none else Value.str (parts.getD 1 "")
    let id2 : Int := if pyIsDigit (parts.getD 2 "") then pyInt (parts.getD 2 "") else -1
    let n : Nat := if pyIsDigit (parts.getD 2 "") then 3 else 2
    let evtName := "EVT_" ++ pyUpper (pyJoin "_" (parts.drop n))
    match wxGetattr reg evtName with
    | some evt => Except.ok (some (evt, src, id1, id2))
    | Option.none =>
        Except.error (PyError.unknownEvent ("Invalid event name \"" ++ evtName ++ "\" in " ++ name))

/-- A window object as `AutoBindEvent` sees it: a class name (used in
exception messages), the attributes `dir(win)` enumerates paired with
their values (in `dir` order), and — for the `XrcFrame` / `XrcDialog` /
`XrcPanel` classes — the `__getattr__` hook backed by an `XRCCTRL` table
of the child controls the XRC resource can resolve (`Option.none` models
a window class without that hook). -/
structure Window where
  cls : String
  attrs : List (String × Value)
  xrc : Option (List (String × Value))
deriving DecidableEq

/-- Model of `dir(win)`: the attribute names of the window, in the order
the `attrs` field lists them (Python sorts them; the model takes the
field as already enumerating that order). -/
def dirWin (w : Window) : List String :=
  w.attrs.map Prod.fst

/-- Model of `xrc.XRCCTRL(self, name)`: the named child control when the
resource store resolves it, `None` otherwise. -/
def xrcctrl (ctrls : List (String × Value)) (n : String) : Value :=
  match ctrls.find? (fun p => p.1 == n) with
  | some p => p.2
  | Option.none => Value.none

/-- Model of Python `getattr(win, n)`: an attribute from the instance or
class wins; otherwise the `__getattr__` hook of the Xrc window classes
(xrcform.py lines 138-144) runs `XRCCTRL` and raises `AttributeError`
when it returns `None`; a window without the hook raises the default
`AttributeError`. -/
def pyGetattr (w : Window) (n : String) : Except PyError Value :=
  match w.attrs.find? (fun p => p.1 == n) with
  | some p => Except.ok p.2
  | Option.none =>
    match w.xrc with
    | some ctrls =>
        if xrcctrl ctrls n = Value.none then
          Except.error (PyError.attributeError
            (w.cls ++ " instance has no attribute \x27" ++ n ++ "\x27"))
        else Except.ok (xrcctrl ctrls n)
    | Option.none =>
        Except.error (PyError.attributeError
          ("\x27" ++ w.cls ++ "\x27 object has no attribute \x27" ++ n ++ "\x27"))

/-- A performed `win.Bind(event, value, src, id1, id2)` call (xrcform.py
line 85), recorded with its five arguments. -/
structure Registration where
  event : String
  handler : Value
  src : Value
  id1 : Int
  id2 : Int
deriving DecidableEq

/-- Embedding of xrcform.py lines 78-83: when the parsed `src` is truthy
(a non-empty string), replace it by `getattr(win, src)`, raising
`missingWidget` (`Cannot find widget`) when that lookup returns `None`;
an `AttributeError` from the lookup itself propagates.  A falsy `src`
(`None` or the empty string) is left untouched. -/
def resolveSrc (w : Window) (src : Value) : Except PyError Value :=
  if pyTruthy src then
    match pyGetattr w (strOf src) with
    | Except.error e => Except.error e
    | Except.ok so =>
        if so = Value.none then
          Except.error (PyError.missingWidget
            ("Cannot find widget \"" ++ strOf src ++ "\" in " ++ w.cls))
        else Except.ok so
  else Except.ok src

/-- Embedding of xrcform.py lines 84-85: `Bind` is called exactly when
the (resolved) source is not `None` or one of the ids is non-negative;
otherwise the method is skipped silently. -/
def regStep (evt : String) (handler src : Value) (id1 id2 : Int) : List Registration :=
  if src ≠ Value.none ∨ 0 ≤ id1 ∨ 0 ≤ id2 then
    [Registration.mk evt handler src id1 id2]
  else []

/-- Processing of one callable prefixed attribute by the `AutoBindEvent`
loop body (xrcform.py lines 77-85): run the parser — unpacking its `None`
return raises a `TypeError`, since line 77 destructures the result
unconditionally — then resolve the source and perform the guarded
`Bind`. -/
def processAttr (reg : WxRegistry) (w : Window) (pfx : String) (attr : String)
    (value : Value) : Except PyError (List Registration) :=
  match MethodNameToEvent reg attr pfx with
  | Except.error e => Except.error e
  | Except.ok Option.none =>
      Except.error (PyError.typeError "cannot unpack non-iterable NoneType object")
  | Except.ok (some (evt, src0, id1, id2)) =>
      match resolveSrc w src0 with
      | Except.error e => Except.error e
      | Except.ok src => Except.ok (regStep evt value src id1 id2)

/-- The `for attr in dir(win)` loop of `AutoBindEvent` (xrcform.py lines
73-85) over an explicit attribute list: each attribute not excluded and
starting with the prefix whose value is callable is processed; the first
raised exception aborts the loop, but the registrations already performed
before it stand (they are side effects on the window). -/
def autoBindList (reg : WxRegistry) (w : Window) (pfx : String)
    (excludes : List String) : List String → List Registration × Option PyError
  | [] => ([], Option.none)
  | a :: rest =>
    if !excludes.contains a && pyStartswith a pfx then
      match pyGetattr w a with
      | Except.error e => ([], some e)
      | Except.ok v =>
        if pyCallable v then
          match processAttr reg w pfx a v with
          | Except.error e => ([], some e)
          | Except.ok rs =>
              let p := autoBindList reg w pfx excludes rest
              (rs ++ p.1, p.2)
        else autoBindList reg w pfx excludes rest
    else autoBindList reg w pfx excludes rest

/-- Embedding of `AutoBindEvent(win, prefix, excludes)` (xrcform.py lines
65-85): iterate `dir(win)` and process each eligible method, returning
the registrations performed together with the exception that aborted the
loop, if any. -/
def AutoBindEvent (reg : WxRegistry) (w : Window) (pfx : String)
    (excludes : List String) : List Registration × Option PyError :=
  autoBindList reg w pfx excludes (dirWin w)

/-- The spec abstracts the concrete exceptions of the code into three
error kinds; its `MissingWidget` ("a named-source-reference does not
resolve to a usable child control on the window", spec section 7) is
realized by two concrete channels: the explicit `Cannot find widget`
exception of `AutoBindEvent` (line 81, when the attribute resolves to
`None`) and the `AttributeError` raised by attribute lookup when the
referenced attribute is absent (for the Xrc window classes, by
`__getattr__` at line 141). -/
def isMissingWidgetSignal : PyError → Bool
  | PyError.missingWidget _ => true
  | PyError.attributeError _ => true
  | _ => false

/-- Spec step 4, by its words: the second token, when composed entirely
of decimal digits, is the numeric identifier `id1`; the sentinel -1 means
"no identifier constraint". -/
def specId1 (parts : List String) : Int :=
  if pyIsDigit (parts.getD 1 "") then pyInt (parts.getD 1 "") else -1

/-- Spec step 4, by its words: a non-numeric second token is the
named-source-reference; a numeric one leaves the source unset. -/
def specSrc (parts : List String) : Value :=
  if pyIsDigit (parts.getD 1 "") then Value.none else Value.str (parts.getD 1 "")

/-- Spec step 5, by its words: the third token is consumed as `id2` only
when it is purely numeric, with the same -1 sentinel. -/
def specId2 (parts : List String) : Int :=
  if pyIsDigit (parts.getD 2 "") then pyInt (parts.getD 2 "") else -1

/-- Spec step 5/6, by their words: the consumed tokens are the prefix,
the second token, and the third exactly when it is purely numeric. -/
def specConsumed (parts : List String) : Nat :=
  if pyIsDigit (parts.getD 2 "") then 3 else 2

/-- Spec step 6, by its words: join all remaining (unconsumed) tokens
with the delimiter, upper-case, and prepend the fixed event-namespace
token. -/
def specEventKey (parts : List String) : String :=
  "EVT_" ++ pyUpper (pyJoin "_" (parts.drop (specConsumed parts)))

/-- The event-kind lookup key the parser derives from a method name (the
`evtName` of xrcform.py line 56). -/
def evtKeyOf (name : String) : String :=
  let parts := pySplit '_' name
  "EVT_" ++ pyUpper (pyJoin "_"
    (parts.drop (if pyIsDigit (parts.getD 2 "") then 3 else 2)))

example : pySplit '_' "on_Button1_button" = ["on", "Button1", "button"] := by rfl

example : MethodNameToEvent wxModel "on_Button1_button" "on" =
    Except.ok (some ("EVT_BUTTON", Value.str "Button1", -1, -1)) := by rfl

example : MethodNameToEvent wxModel "on_1001_1010_button" "on" =
    Except.ok (some ("EVT_BUTTON", Value.none, 1001, 1010)) := by rfl

example : MethodNameToEvent wxModel "onx_a_button" "on" = Except.ok Option.none := by rfl

example :
    AutoBindEvent wxModel
      (Window.mk "W" [("onx_a_button", Value.method "onx_a_button")] Option.none) "on" [] =
    ([], some (PyError.typeError "cannot unpack non-iterable NoneType object")) := by rfl

example :
    AutoBindEvent wxModel
      (Window.mk "XrcFrame"
        [("Button1", Value.ctrl "Button1"),
         ("on_Button1_button", Value.method "on_Button1_button")] Option.none) "on" [] =
    ([Registration.mk "EVT_BUTTON" (Value.method "on_Button1_button")
        (Value.ctrl "Button1") (-1) (-1)], Option.none) := by rfl

example :
    AutoBindEvent wxModel
      (Window.mk "XrcFrame"
        [("on_Missing_button", Value.method "on_Missing_button")] (some [])) "on" [] =
    ([], some (PyError.attributeError
      "XrcFrame instance has no attribute \x27Missing\x27")) := by rfl

example :
    AutoBindEvent wxModel
      (Window.mk "XrcFrame"
        [("Missing", Value.none),
         ("on_Missing_button", Value.method "on_Missing_button")] (some [])) "on" [] =
    ([], some (PyError.missingWidget "Cannot find widget \"Missing\" in XrcFrame")) := by rfl

example :
    AutoBindEvent wxModel
      (Window.mk "W" [("on__button", Value.method "on__button")] Option.none) "on" [] =
    ([Registration.mk "EVT_BUTTON" (Value.method "on__button") (Value.str "") (-1) (-1)],
      Option.none) := by rfl

/-- On a name with at least 3 tokens whose first token is the prefix, the
parser reaches its main branch: the result is decided by looking up the
derived event key, and the tuple components are the digit-test splits of
tokens 2 and 3. -/
lemma methodNameToEvent_main (reg : WxRegistry) (name pfx : String)
    (h3 : 3 ≤ (pySplit '_' name).length)
    (hp : (pySplit '_' name).getD 0 "" = pfx) :
    MethodNameToEvent reg name pfx =
      (match wxGetattr reg (evtKeyOf name) with
       | some evt => Except.ok (some (evt,
           (if pyIsDigit ((pySplit '_' name).getD 1 "") then Value.none
            else Value.str ((pySplit '_' name).getD 1 "")),
           (if pyIsDigit ((pySplit '_' name).getD 1 "")
            then pyInt ((pySplit '_' name).getD 1 "") else -1),
           (if pyIsDigit ((pySplit '_' name).getD 2 "")
            then pyInt ((pySplit '_' name).getD 2 "") else -1)))
       | Option.none => Except.error (PyError.unknownEvent
           ("Invalid event name \"" ++ evtKeyOf name ++ "\" in " ++ name))) := by
  simp only [MethodNameToEvent]
  rw [if_neg (by omega), if_neg (fun hne => hne hp)]
  rfl

/-- `pyInt` is a natural number cast, hence never negative. -/
lemma pyInt_nonneg (s : String) : 0 ≤ pyInt s := by
  unfold pyInt
  exact Int.natCast_nonneg _

/-- A successful source resolution either left a falsy source untouched
or produced a value that is not `None` (the `None` case raises). -/
lemma resolveSrc_ok_cases (w : Window) (src src2 : Value)
    (h : resolveSrc w src = Except.ok src2) :
    (pyTruthy src = false ∧ src2 = src) ∨ src2 ≠ Value.none := by
  unfold resolveSrc at h
  by_cases ht : pyTruthy src = true
  · rw [if_pos ht] at h
    split at h
    · simp at h
    · rename_i so heq
      split at h
      · simp at h
      · rename_i hn
        injection h with h2
        right
        rw [← h2]
        exact hn
  · rw [if_neg ht] at h
    injection h with h2
    left
    exact ⟨by simpa using ht, h2.symm⟩

/-- Loop-step lemma: an excluded or non-prefixed attribute is skipped. -/
lemma autoBind_cons_skip (reg : WxRegistry) (w : Window) (pfx : String)
    (excludes : List String) (a : String) (rest : List String)
    (hcond : (!excludes.contains a && pyStartswith a pfx) = false) :
    autoBindList reg w pfx excludes (a :: rest) =
      autoBindList reg w pfx excludes rest := by
  rw [autoBindList]
  rw [if_neg (by rw [hcond]; simp)]

/-- Loop-step lemma: a non-callable attribute value is skipped. -/
lemma autoBind_cons_notCallable (reg : WxRegistry) (w : Window) (pfx : String)
    (excludes : List String) (a : String) (rest : List String) (v : Value)
    (hcond : (!excludes.contains a && pyStartswith a pfx) = true)
    (hv : pyGetattr w a = Except.ok v) (hc : pyCallable v = false) :
    autoBindList reg w pfx excludes (a :: rest) =
      autoBindList reg w pfx excludes rest := by
  rw [autoBindList]
  rw [if_pos hcond, hv]
  simp [hc]

/-- Loop-step lemma: an exception while processing an eligible method
aborts the loop with no further registrations. -/
lemma autoBind_cons_err (reg : WxRegistry) (w : Window) (pfx : String)
    (excludes : List String) (a : String) (rest : List String) (v : Value)
    (e : PyError)
    (hcond : (!excludes.contains a && pyStartswith a pfx) = true)
    (hv : pyGetattr w a = Except.ok v) (hc : pyCallable v = true)
    (he : processAttr reg w pfx a v = Except.error e) :
    autoBindList reg w pfx excludes (a :: rest) = ([], some e) := by
  rw [autoBindList]
  rw [if_pos hcond, hv]
  simp [hc, he]

/-- Loop-step lemma: registrations from an eligible method are prepended
to whatever the rest of the loop does. -/
lemma autoBind_cons_ok (reg : WxRegistry) (w : Window) (pfx : String)
    (excludes : List String) (a : String) (rest : List String) (v : Value)
    (rs : List Registration)
    (hcond : (!excludes.contains a && pyStartswith a pfx) = true)
    (hv : pyGetattr w a = Except.ok v) (hc : pyCallable v = true)
    (hrs : processAttr reg w pfx a v = Except.ok rs) :
    autoBindList reg w pfx excludes (a :: rest) =
      (rs ++ (autoBindList reg w pfx excludes rest).1,
        (autoBindList reg w pfx excludes rest).2) := by
  rw [autoBindList]
  rw [if_pos hcond, hv]
  simp [hc, hrs]

/-- Claim C2: a method name splitting into fewer than 3 delimiter-separated
tokens makes `MethodNameToEvent` raise `InvalidName`, for every configured
prefix — the length check precedes the prefix check, so the parser never
returns "not applicable" for a too-short name. -/
theorem shortName_invalidName (reg : WxRegistry) (name pfx : String)
    (h : (pySplit '_' name).length < 3) :
    MethodNameToEvent reg name pfx =
      Except.error (PyError.invalidName ("Invalid method name: " ++ name)) := by
  simp only [MethodNameToEvent]
  rw [if_pos h]

/-- Witness for C2 at the concrete name `x_y` (2 tokens) with prefix `on`:
the name is too short and its first token is not the prefix, yet
`InvalidName` is raised. -/
theorem shortName_invalidName_witness :
    (pySplit '_' "x_y").length < 3 ∧
    (pySplit '_' "x_y").getD 0 "" ≠ "on" ∧
    MethodNameToEvent wxModel "x_y" "on" =
      Except.error (PyError.invalidName ("Invalid method name: " ++ "x_y")) :=
  ⟨by decide, by decide, shortName_invalidName wxModel "x_y" "on" (by decide)⟩

/-- Claim C1 (counter-evidence): the parser does return "not applicable"
(Python `None`) for `onx_a_button` with prefix `on`, but `AutoBindEvent`
on a window carrying such a callable method does not coexist with it
silently: line 77 unpacks the `None` return and raises a `TypeError`,
registering nothing. -/
theorem nonPrefixToken_binder_typeError :
    MethodNameToEvent wxModel "onx_a_button" "on" = Except.ok Option.none ∧
    AutoBindEvent wxModel
      (Window.mk "W" [("onx_a_button", Value.method "onx_a_button")] Option.none) "on" [] =
      ([], some (PyError.typeError "cannot unpack non-iterable NoneType object")) :=
  ⟨rfl, rfl⟩

/-- Claim C5: `on_Button1_button` parses to the click-event-kind, the
source-reference `Button1`, and the sentinel -1 for both ids. -/
theorem button1_parse :
    MethodNameToEvent wxModel "on_Button1_button" "on" =
      Except.ok (some (wxEVT_BUTTON, Value.str "Button1", -1, -1)) := rfl

/-- Claim C6: `on_1001_1010_button` parses to the click-event-kind with no
source-reference and the inclusive id range [1001, 1010], and
`on_1001_button` to id1 = 1001 with id2 left at the sentinel -1; in both
cases the purely numeric second token leaves the source unset. -/
theorem numericId_parse :
    MethodNameToEvent wxModel "on_1001_1010_button" "on" =
      Except.ok (some (wxEVT_BUTTON, Value.none, 1001, 1010)) ∧
    MethodNameToEvent wxModel "on_1001_button" "on" =
      Except.ok (some (wxEVT_BUTTON, Value.none, 1001, -1)) :=
  ⟨rfl, rfl⟩

/-- Claim C4: on a prefixed name with at least 3 tokens, the parser agrees
with the spec's wording — the third token is consumed as `id2` exactly
when purely numeric (independently of whether the second token was
consumed as source-reference), and the event-kind lookup key joins the
unconsumed tokens with the delimiter, upper-cases them, and prepends the
event-namespace token. -/
theorem thirdToken_spec_agreement (reg : WxRegistry) (name pfx : String)
    (h3 : 3 ≤ (pySplit '_' name).length)
    (hp : (pySplit '_' name).getD 0 "" = pfx) :
    MethodNameToEvent reg name pfx =
      (match wxGetattr reg (specEventKey (pySplit '_' name)) with
       | some evt => Except.ok (some (evt, specSrc (pySplit '_' name),
           specId1 (pySplit '_' name), specId2 (pySplit '_' name)))
       | Option.none => Except.error (PyError.unknownEvent
           ("Invalid event name \"" ++ specEventKey (pySplit '_' name) ++ "\" in " ++ name))) := by
  rw [methodNameToEvent_main reg name pfx h3 hp]
  rfl

/-- Witness for C4 at `on_Button1_1010_button`: the second token is
non-numeric and becomes the source-reference, yet the numeric third token
is still consumed as `id2`, and the key joins only the remaining token. -/
theorem thirdToken_spec_agreement_witness :
    3 ≤ (pySplit '_' "on_Button1_1010_button").length ∧
    (pySplit '_' "on_Button1_1010_button").getD 0 "" = "on" ∧
    MethodNameToEvent wxModel "on_Button1_1010_button" "on" =
      (match wxGetattr wxModel (specEventKey (pySplit '_' "on_Button1_1010_button")) with
       | some evt => Except.ok (some (evt, specSrc (pySplit '_' "on_Button1_1010_button"),
           specId1 (pySplit '_' "on_Button1_1010_button"),
           specId2 (pySplit '_' "on_Button1_1010_button")))
       | Option.none => Except.error (PyError.unknownEvent
           ("Invalid event name \"" ++ specEventKey (pySplit '_' "on_Button1_1010_button") ++
             "\" in " ++ "on_Button1_1010_button"))) ∧
    MethodNameToEvent wxModel "on_Button1_1010_button" "on" =
      Except.ok (some ("EVT_BUTTON", Value.str "Button1", -1, 1010)) :=
  ⟨by decide, by decide,
   thirdToken_spec_agreement wxModel "on_Button1_1010_button" "on" (by decide) (by decide),
   rfl⟩

/-- Claim C7: on a prefixed name with at least 3 tokens, the parser's
outcome is decided by resolving the derived event key in the toolkit
registry — an unresolved key raises `UnknownEvent` with that key in the
message, and a resolved key raises nothing and returns the resolved
event-kind identifier in the tuple. -/
theorem eventKey_lookup_decides (reg : WxRegistry) (name pfx : String)
    (h3 : 3 ≤ (pySplit '_' name).length)
    (hp : (pySplit '_' name).getD 0 "" = pfx) :
    (wxGetattr reg (evtKeyOf name) = Option.none →
      MethodNameToEvent reg name pfx = Except.error (PyError.unknownEvent
        ("Invalid event name \"" ++ evtKeyOf name ++ "\" in " ++ name))) ∧
    (∀ e, wxGetattr reg (evtKeyOf name) = some e →
      ∃ src id1 id2, MethodNameToEvent reg name pfx = Except.ok (some (e, src, id1, id2))) := by
  constructor
  · intro hnone
    rw [methodNameToEvent_main reg name pfx h3 hp, hnone]
  · intro e he
    rw [methodNameToEvent_main reg name pfx h3 hp, he]
    exact ⟨_, _, _, rfl⟩

/-- Witness for C7: `on_Button1_bogusevent` derives the key
`EVT_BOGUSEVENT`, absent from the registry, and raises `UnknownEvent`;
`on_Button1_button` derives `EVT_BUTTON`, present, and returns it. -/
theorem eventKey_lookup_decides_witness :
    wxGetattr wxModel (evtKeyOf "on_Button1_bogusevent") = Option.none ∧
    MethodNameToEvent wxModel "on_Button1_bogusevent" "on" =
      Except.error (PyError.unknownEvent
        ("Invalid event name \"" ++ evtKeyOf "on_Button1_bogusevent" ++ "\" in " ++
          "on_Button1_bogusevent")) ∧
    (∃ src id1 id2, MethodNameToEvent wxModel "on_Button1_button" "on" =
      Except.ok (some ("EVT_BUTTON", src, id1, id2))) :=
  ⟨by decide,
   (eventKey_lookup_decides wxModel "on_Button1_bogusevent" "on" (by decide) (by decide)).1
     (by decide),
   (eventKey_lookup_decides wxModel "on_Button1_button" "on" (by decide) (by decide)).2
     "EVT_BUTTON" (by decide)⟩

/-- Claim C8: once a method name has parsed and its source has resolved,
the binder loop body performs the `Bind` registration whenever the rule
carries a source (resolved value not `None`) or a non-negative id, and
skips it silently exactly when it carries neither. -/
theorem registration_guard (reg : WxRegistry) (w : Window) (pfx attr : String)
    (value : Value) (evt : String) (src0 src : Value) (id1 id2 : Int)
    (hp : MethodNameToEvent reg attr pfx = Except.ok (some (evt, src0, id1, id2)))
    (hr : resolveSrc w src0 = Except.ok src) :
    (src ≠ Value.none ∨ 0 ≤ id1 ∨ 0 ≤ id2 →
      processAttr reg w pfx attr value =
        Except.ok [Registration.mk evt value src id1 id2]) ∧
    (src = Value.none ∧ id1 < 0 ∧ id2 < 0 →
      processAttr reg w pfx attr value = Except.ok []) := by
  have hbase : processAttr reg w pfx attr value =
      Except.ok (regStep evt value src id1 id2) := by
    simp only [processAttr, hp, hr]
  constructor
  · intro hcond
    rw [hbase]
    unfold regStep
    rw [if_pos hcond]
  · rintro ⟨h1, h2, h3⟩
    rw [hbase]
    unfold regStep
    rw [if_neg]
    push_neg
    exact ⟨h1, h2, h3⟩

/-- Witness for C8 at `on_Button1_button` on a window owning the control
`Button1`: the rule carries a source, so the single `Bind` registration is
performed. -/
theorem registration_guard_witness :
    MethodNameToEvent wxModel "on_Button1_button" "on" =
      Except.ok (some ("EVT_BUTTON", Value.str "Button1", -1, -1)) ∧
    resolveSrc (Window.mk "W" [("Button1", Value.ctrl "Button1")] Option.none)
      (Value.str "Button1") = Except.ok (Value.ctrl "Button1") ∧
    processAttr wxModel (Window.mk "W" [("Button1", Value.ctrl "Button1")] Option.none)
      "on" "on_Button1_button" (Value.method "h") =
      Except.ok [Registration.mk "EVT_BUTTON" (Value.method "h")
        (Value.ctrl "Button1") (-1) (-1)] :=
  ⟨rfl, rfl,
   (registration_guard wxModel (Window.mk "W" [("Button1", Value.ctrl "Button1")] Option.none)
      "on" "on_Button1_button" (Value.method "h") "EVT_BUTTON" (Value.str "Button1")
      (Value.ctrl "Button1") (-1) (-1) rfl rfl).1 (Or.inl (by decide))⟩

/-- Claim C9: `on__button` (two consecutive delimiters) parses with the
empty string — not `None` — as the source-reference; on a window whose
only attribute is that method, the binder's truthiness test skips source
resolution (so no `MissingWidget` and no `AttributeError` can arise from
it), yet the registration is still performed with the raw empty string as
the source argument. -/
theorem emptySource_binds_raw (w : Window) (m : String)
    (hdir : dirWin w = ["on__button"])
    (hget : pyGetattr w "on__button" = Except.ok (Value.method m)) :
    MethodNameToEvent wxModel "on__button" "on" =
      Except.ok (some (wxEVT_BUTTON, Value.str "", -1, -1)) ∧
    resolveSrc w (Value.str "") = Except.ok (Value.str "") ∧
    AutoBindEvent wxModel w "on" [] =
      ([Registration.mk wxEVT_BUTTON (Value.method m) (Value.str "") (-1) (-1)],
        Option.none) := by
  refine ⟨rfl, rfl, ?_⟩
  unfold AutoBindEvent
  rw [hdir]
  rw [autoBind_cons_ok wxModel w "on" [] "on__button" [] (Value.method m)
    [Registration.mk wxEVT_BUTTON (Value.method m) (Value.str "") (-1) (-1)]
    (by decide) hget rfl ?hproc]
  · rfl
  case hproc =>
    simp only [processAttr]
    rfl

/-- Witness for C9 on a concrete window carrying only the method
`on__button`. -/
theorem emptySource_binds_raw_witness :
    MethodNameToEvent wxModel "on__button" "on" =
      Except.ok (some (wxEVT_BUTTON, Value.str "", -1, -1)) ∧
    resolveSrc (Window.mk "W" [("on__button", Value.method "on__button")] Option.none)
      (Value.str "") = Except.ok (Value.str "") ∧
    AutoBindEvent wxModel
      (Window.mk "W" [("on__button", Value.method "on__button")] Option.none) "on" [] =
      ([Registration.mk wxEVT_BUTTON (Value.method "on__button") (Value.str "") (-1) (-1)],
        Option.none) :=
  emptySource_binds_raw
    (Window.mk "W" [("on__button", Value.method "on__button")] Option.none)
    "on__button" rfl rfl

/-- Claim C3: an eligible method whose parsed rule carries the
named-source-reference `Missing` makes the binder resolve that name on
the window; when the attribute resolves to `None` or is absent (the
latter surfacing as the `AttributeError` of the Xrc `__getattr__` hook),
processing raises the spec's MissingWidget signal and performs no
registration, and a binder call whose only eligible method is this one
returns no registrations at all. -/
theorem missingSource_missingWidget (w : Window) (m : String)
    (hm : pyGetattr w "on_Missing_button" = Except.ok (Value.method m))
    (hsrc : pyGetattr w "Missing" = Except.ok Value.none ∨
      ∃ msg, pyGetattr w "Missing" = Except.error (PyError.attributeError msg)) :
    (∃ e, processAttr wxModel w "on" "on_Missing_button" (Value.method m) =
        Except.error e ∧ isMissingWidgetSignal e = true) ∧
    ((dirWin w = ["Missing", "on_Missing_button"] ∨ dirWin w = ["on_Missing_button"]) →
      ∃ e, AutoBindEvent wxModel w "on" [] = ([], some e) ∧
        isMissingWidgetSignal e = true) := by
  have hres : ∃ e, resolveSrc w (Value.str "Missing") = Except.error e ∧
      isMissingWidgetSignal e = true := by
    rcases hsrc with hn | ⟨msg, he⟩
    · refine ⟨PyError.missingWidget ("Cannot find widget \"" ++ "Missing" ++ "\" in " ++ w.cls),
        ?_, rfl⟩
      unfold resolveSrc
      rw [if_pos (by decide)]
      simp only [strOf]
      rw [hn]
      rfl
    · refine ⟨PyError.attributeError msg, ?_, rfl⟩
      unfold resolveSrc
      rw [if_pos (by decide)]
      simp only [strOf]
      rw [he]
  obtain ⟨e, hre, hsig⟩ := hres
  have hpar : MethodNameToEvent wxModel "on_Missing_button" "on" =
      Except.ok (some ("EVT_BUTTON", Value.str "Missing", -1, -1)) := rfl
  have hproc : processAttr wxModel w "on" "on_Missing_button" (Value.method m) =
      Except.error e := by
    simp only [processAttr, hpar, hre]
  refine ⟨⟨e, hproc, hsig⟩, ?_⟩
  intro hdir
  rcases hdir with hdir | hdir
  · unfold AutoBindEvent
    rw [hdir]
    rw [autoBind_cons_skip wxModel w "on" [] "Missing" ["on_Missing_button"] (by decide)]
    rw [autoBind_cons_err wxModel w "on" [] "on_Missing_button" [] (Value.method m) e
      (by decide) hm rfl hproc]
    exact ⟨e, rfl, hsig⟩
  · unfold AutoBindEvent
    rw [hdir]
    rw [autoBind_cons_err wxModel w "on" [] "on_Missing_button" [] (Value.method m) e
      (by decide) hm rfl hproc]
    exact ⟨e, rfl, hsig⟩

/-- Witness for C3 on a concrete window whose attribute `Missing` is
`None` (an empty/no-op value): the binder raises the `Cannot find widget`
exception and registers nothing. -/
theorem missingSource_missingWidget_witness :
    (∃ e, processAttr wxModel
        (Window.mk "XrcFrame"
          [("Missing", Value.none), ("on_Missing_button", Value.method "on_Missing_button")]
          (some []))
        "on" "on_Missing_button" (Value.method "on_Missing_button") =
        Except.error e ∧ isMissingWidgetSignal e = true) ∧
    ((dirWin (Window.mk "XrcFrame"
          [("Missing", Value.none), ("on_Missing_button", Value.method "on_Missing_button")]
          (some [])) = ["Missing", "on_Missing_button"] ∨
      dirWin (Window.mk "XrcFrame"
          [("Missing", Value.none), ("on_Missing_button", Value.method "on_Missing_button")]
          (some [])) = ["on_Missing_button"]) →
      ∃ e, AutoBindEvent wxModel
        (Window.mk "XrcFrame"
          [("Missing", Value.none), ("on_Missing_button", Value.method "on_Missing_button")]
          (some [])) "on" [] = ([], some e) ∧ isMissingWidgetSignal e = true) :=
  missingSource_missingWidget
    (Window.mk "XrcFrame"
      [("Missing", Value.none), ("on_Missing_button", Value.method "on_Missing_button")]
      (some []))
    "on_Missing_button" rfl (Or.inl rfl)

/-- Claim C10: every tuple the parser returns has a string (possibly
empty) source-reference or a non-negative `id1`, and consequently for any
successful source resolution the binder's silent-skip branch is never
taken on a parser-produced rule: the `Bind` registration is always
performed. -/
theorem parsedRule_never_skipped (reg : WxRegistry) (name pfx : String)
    (evt : String) (src : Value) (id1 id2 : Int)
    (h : MethodNameToEvent reg name pfx = Except.ok (some (evt, src, id1, id2))) :
    ((∃ s, src = Value.str s) ∨ 0 ≤ id1) ∧
    (∀ (w : Window) (v : Value) (src2 : Value), resolveSrc w src = Except.ok src2 →
      regStep evt v src2 id1 id2 = [Registration.mk evt v src2 id1 id2]) := by
  have h3 : 3 ≤ (pySplit '_' name).length := by
    by_contra hlt
    push_neg at hlt
    simp only [MethodNameToEvent] at h
    rw [if_pos hlt] at h
    exact absurd h (by simp)
  have hp : (pySplit '_' name).getD 0 "" = pfx := by
    by_contra hne
    simp only [MethodNameToEvent] at h
    rw [if_neg (by omega), if_pos hne] at h
    exact absurd h (by simp)
  rw [methodNameToEvent_main reg name pfx h3 hp] at h
  have hcase : ((∃ s, src = Value.str s) ∨ 0 ≤ id1) := by
    split at h
    · simp only [Except.ok.injEq, Option.some.injEq, Prod.mk.injEq] at h
      obtain ⟨-, hsrc, hid1, -⟩ := h
      by_cases hd : pyIsDigit ((pySplit '_' name).getD 1 "") = true
      · right
        rw [← hid1, if_pos hd]
        exact pyInt_nonneg _
      · left
        exact ⟨(pySplit '_' name).getD 1 "", by rw [← hsrc, if_neg hd]⟩
    · exact absurd h (by simp)
  refine ⟨hcase, ?_⟩
  intro w v src2 hr
  have hfire : src2 ≠ Value.none ∨ 0 ≤ id1 ∨ 0 ≤ id2 := by
    rcases resolveSrc_ok_cases w src src2 hr with ⟨hf, hs2⟩ | hne
    · rcases hcase with ⟨s, hss⟩ | hpos
      · left
        rw [hs2, hss]
        simp
      · right
        left
        exact hpos
    · left
      exact hne
  unfold regStep
  rw [if_pos hfire]

/-- Witness for C10 at `on_Button1_button`: the rule carries the string
source `Button1`, and any resolved source makes the registration fire. -/
theorem parsedRule_never_skipped_witness :
    MethodNameToEvent wxModel "on_Button1_button" "on" =
      Except.ok (some ("EVT_BUTTON", Value.str "Button1", -1, -1)) ∧
    (((∃ s, Value.str "Button1" = Value.str s) ∨ 0 ≤ (-1 : Int)) ∧
      (∀ (w : Window) (v : Value) (src2 : Value),
        resolveSrc w (Value.str "Button1") = Except.ok src2 →
        regStep "EVT_BUTTON" v src2 (-1) (-1) =
          [Registration.mk "EVT_BUTTON" v src2 (-1) (-1)])) :=
  ⟨rfl, parsedRule_never_skipped wxModel "on_Button1_button" "on" "EVT_BUTTON"
    (Value.str "Button1") (-1) (-1) rfl⟩
